import Mathlib

/-!
Verification development for the `ngenic` Home Assistant integration
(`custom_components/ngenic`).  The Python sources are shallowly embedded:
pure computations become Lean functions, attribute mutation becomes
explicit state passing, `async` HTTP effects become explicit lists of
emitted calls, and exceptions become `Option`/`Except` values.

Python `datetime` instants are modelled by `DT` below: a whole-minute
component plus the sub-minute remainder in microseconds.  `astimezone(UTC)`
does not change the instant a `datetime` denotes, so instants compare
directly.  `datetime.fromisoformat` and `datetime.isoformat` are external
library functions; the embedding takes them as parameters
(`parse : String → Option DT`, `iso : DT → String`).
-/

/-- An instant of time: whole minutes since an epoch, plus the
seconds-and-microseconds remainder below one minute, in microseconds.
`replace(second=0, microsecond=0)` zeroes the `subUs` component. -/
structure DT where
  min : Int
  subUs : Nat
  deriving DecidableEq, Repr

/-- Total microseconds since the epoch; instants compare by this value. -/
def DT.toUs (d : DT) : Int := d.min * 60000000 + (d.subUs : Int)

/-- Boolean `<=` on instants (Python `datetime.__le__`). -/
def DT.leb (a b : DT) : Bool := decide (a.toUs ≤ b.toUs)

/-- Boolean `<` on instants (Python `datetime.__lt__`). -/
def DT.ltb (a b : DT) : Bool := decide (a.toUs < b.toUs)

/-- `d.replace(second=0, microsecond=0)`: truncation to whole minutes. -/
def DT.truncMin (d : DT) : DT := ⟨d.min, 0⟩

/-- `d + timedelta(days=k)`: one day is 1440 minutes. -/
def DT.addDays (d : DT) (k : Int) : DT := ⟨d.min + k * 1440, d.subUs⟩

/-- A JSON field value as stored for datetime fields: `null` or a string. -/
inductive JField where
  | null
  | str (s : String)
  deriving DecidableEq, Repr

/-- `UPDATE_SCHEDULE_TOPIC` from `custom_components/ngenic/const.py`:
`f"{DOMAIN}_schedule_update"` with `DOMAIN = "ngenic"`. -/
def UPDATE_SCHEDULE_TOPIC : String := "ngenic_schedule_update"

/-- Modelled from the spec: the `ngenicpy` REST path table (`API_PATH`,
whose module is not in the sources) maps the setpoint-schedules resource of
a tune to a URL; the claims only need that the URL is a function of the
tune UUID. -/
def setpointSchedulesUrl (tuneUuid : String) : String :=
  "tunes/" ++ tuneUuid ++ "/setpointSchedules"

/-- The state of a `SetpointSchedule` wrapper object
(`ngenicpy/models/setpoint_schedule.py`).  `startTime`/`endTime` mirror the
JSON fields: `none` means the key is absent (subscripting raises, which the
bare `except` turns into `None`), `some .null` a JSON null, `some (.str s)`
a string.  `uuidF` is the `"uuid"` key when present (Modelled from the
spec: `NgenicBase.uuid()`, not in the sources, reads the JSON `"uuid"`
attribute and raises when it is absent; the `try`/`except` in
`async_update` turns that into `None`). -/
structure SetpointSchedule where
  parentTuneUuid : String
  _active : Bool
  startTime : Option JField
  endTime : Option JField
  uuidF : Option String
  deriving DecidableEq, Repr

namespace SetpointSchedule

/-- `start_time()`: read `self["startTime"]` (any failure gives `None`),
then `datetime.fromisoformat(date_string).astimezone(UTC)` (any failure,
including `fromisoformat(None)`, gives `None`).  `astimezone` keeps the
instant. -/
def start_time (parse : String → Option DT) (s : SetpointSchedule) : Option DT :=
  match s.startTime with
  | none => none
  | some JField.null => none
  | some (JField.str d) => parse d

/-- `end_time()`: identical to `start_time` on the `"endTime"` key. -/
def end_time (parse : String → Option DT) (s : SetpointSchedule) : Option DT :=
  match s.endTime with
  | none => none
  | some JField.null => none
  | some (JField.str d) => parse d

/-- The `_active` computation in `__init__`:
`now = datetime.now(UTC).replace(second=0, microsecond=0)` and then
`(now >= start_time() and now < end_time()) if both are not None else False`.
`rawNow` is the construction-time clock reading. -/
def activeInit (parse : String → Option DT) (s : SetpointSchedule)
    (rawNow : DT) : Bool :=
  let now := rawNow.truncMin
  match s.start_time parse, s.end_time parse with
  | some st, some et => (st.leb now) && (now.ltb et)
  | _, _ => false

/-- `SetpointSchedule.__init__`: store the parent tune UUID and the JSON
fields, then compute `_active` from the construction-time clock. -/
def init (parse : String → Option DT) (tuneUuid : String)
    (startTime endTime : Option JField) (uuidF : Option String)
    (rawNow : DT) : SetpointSchedule :=
  let s : SetpointSchedule :=
    ⟨tuneUuid, false, startTime, endTime, uuidF⟩
  { s with _active := activeInit parse s rawNow }

/-- `active()` returns the stored `_active` flag. -/
def active (s : SetpointSchedule) : Bool := s._active

/-- `activate_away()`: set `_active`, then store
`now.isoformat()` and `(now + timedelta(days=60)).isoformat()` where
`now = datetime.now(UTC).replace(second=0, microsecond=0)`. -/
def activate_away (iso : DT → String) (s : SetpointSchedule)
    (rawNow : DT) : SetpointSchedule :=
  let now := rawNow.truncMin
  { s with
    _active := true
    startTime := some (JField.str (iso now))
    endTime := some (JField.str (iso (now.addDays 60))) }

/-- `deactivate_away()`: clear `_active` and set both bounds to `None`. -/
def deactivate_away (s : SetpointSchedule) : SetpointSchedule :=
  { s with
    _active := false
    startTime := some JField.null
    endTime := some JField.null }

/-- `set_schedule(start_time, end_time)`: set `_active` and store both
bounds as ISO strings (`astimezone(UTC)` keeps the instants). -/
def set_schedule (iso : DT → String) (s : SetpointSchedule)
    (startT endT : DT) : SetpointSchedule :=
  { s with
    _active := true
    startTime := some (JField.str (iso startT))
    endTime := some (JField.str (iso endT)) }

end SetpointSchedule

/-- One remote HTTP call, as emitted by `SetpointSchedule.async_update`.
Modelled from the spec: the `_async_delete`/`_async_put`/`_async_post`
helpers of `NgenicBase` (not in the sources) each perform one
CRUD-style HTTP call against the given URL. -/
inductive HttpCall where
  | delete (url : String)
  | put (url : String)
  | post (url : String)
  deriving DecidableEq, Repr

namespace SetpointSchedule

/-- `async_update()`: dispatch on `self._active` and on whether
`self.uuid()` succeeds.  The embedding returns the list of remote calls
performed, in order; the `if`/`elif` chain of the source performs exactly
one call except in the deactivated-and-no-UUID case, which only logs. -/
def async_update (s : SetpointSchedule) : List HttpCall :=
  let url := setpointSchedulesUrl s.parentTuneUuid
  let schedule_uuid := s.uuidF
  match s._active, schedule_uuid with
  | false, none => []
  | false, some u => [HttpCall.delete (url ++ "/" ++ u)]
  | true, some u => [HttpCall.put (url ++ "/" ++ u)]
  | true, none => [HttpCall.post url]

end SetpointSchedule

/-!
## Entity updates (`sensor.py`, `sensors/base.py`, `climate.py`)

An entity's displayed state and availability flag, and the `async_update`
transition.  The fetch performed inside the `try` block is modelled as an
`Except Unit` value: `.error ()` when any exception was raised, `.ok v`
when `_async_fetch_measurement` returned `v`.
-/

/-- Displayed state and availability of a sensor entity. -/
structure EntityState (α : Type) where
  state : Option α
  available : Bool
  deriving DecidableEq, Repr

namespace NgenicSensor

/-- `NgenicSensor.async_update` (`sensor.py`): on an exception, mark
unavailable and return; otherwise mark available and store the new state
(the `if self._state != new_state` branch assigns it, the `else` branch
leaves the already-equal value). -/
def async_update {α : Type} [DecidableEq α] (e : EntityState α)
    (fetch : Except Unit α) : EntityState α :=
  match fetch with
  | Except.error _ => { e with available := false }
  | Except.ok new_state =>
    let e := { e with available := true }
    if e.state ≠ some new_state then { e with state := some new_state } else e

end NgenicSensor

namespace SlimNgenicSensor

/-- `SlimNgenicSensor.async_update` (`sensors/base.py`): same
try/except/compare-and-assign structure as `NgenicSensor.async_update`. -/
def async_update {α : Type} [DecidableEq α] (e : EntityState α)
    (fetch : Except Unit α) : EntityState α :=
  match fetch with
  | Except.error _ => { e with available := false }
  | Except.ok new_state =>
    let e := { e with available := true }
    if e.state ≠ some new_state then { e with state := some new_state } else e

end SlimNgenicSensor

/-- The climate entity's mutable display state (`climate.py`):
current and target temperature, and availability. -/
structure TuneState where
  current_temperature : Option ℚ
  target_temperature : Option ℚ
  available : Bool
  deriving DecidableEq, Repr

/-- Python `round` rounds half to even. `roundHalfEven q` is the nearest
integer to `q`, ties to the even one. -/
def roundHalfEven (q : ℚ) : ℤ :=
  if q - ⌊q⌋ < 1/2 then ⌊q⌋
  else if 1/2 < q - ⌊q⌋ then ⌊q⌋ + 1
  else if ⌊q⌋ % 2 = 0 then ⌊q⌋ else ⌊q⌋ + 1

/-- Python `round(x, 1)`: round to one decimal place, half to even. -/
def round1 (q : ℚ) : ℚ := (roundHalfEven (q * 10) : ℚ) / 10

namespace NgenicTune

/-- `NgenicTune.async_update` (`climate.py`): fetch the current
temperature measurement and the target room inside `try`; on an exception
mark unavailable and return, leaving both temperatures unchanged; on
success mark available and store both values rounded to one decimal. -/
def async_update (e : TuneState) (fetch : Except Unit (ℚ × ℚ)) : TuneState :=
  match fetch with
  | Except.error _ => { e with available := false }
  | Except.ok (currentValue, targetTemperature) =>
    { current_temperature := some (round1 currentValue)
      target_temperature := some (round1 targetTemperature)
      available := true }

end NgenicTune

/-!
## Measurement responses and the two `get_measurement_value`s

`node.async_measurement(...)` returns `None` when no data exists for the
period, a list of measurement objects when a time range was given, or a
single measurement object otherwise.  Only the `"value"` field matters
here, modelled as a rational.
-/

/-- A non-`None` measurement API response: a list of measurements or a
single measurement, each carrying its `"value"`. -/
inductive MeasResult where
  | list (xs : List ℚ)
  | single (v : ℚ)
  deriving DecidableEq, Repr

/-- `get_measurement_value` from `sensor.py`.  `not measurement` is true
for `None` and for an empty list (an object or non-empty list is truthy),
giving `0`; a non-empty list yields `measurement[-1]["value"]`; a single
measurement yields `measurement["value"]`.  Exceptions from the underlying
call are not caught here (they propagate to `async_update`). -/
def sensorGetMeasurementValue : Option MeasResult → ℚ
  | none => 0
  | some (MeasResult.list []) => 0
  | some (MeasResult.list (x :: xs)) => (x :: xs).getLast (List.cons_ne_nil x xs)
  | some (MeasResult.single v) => v

/-- `get_measurement_value` from `sensors/__init__.py`.  The underlying
call happens inside its own `try`: an exception gives `None`; a falsy
response (`None` or the empty list, the latter via the inner
`if measurement_data:` guard) gives `None`; a non-empty list yields
`float(measurement_data[-1]["value"])`; a single measurement yields
`float(measurement_data["value"])`. -/
def slimGetMeasurementValue : Except Unit (Option MeasResult) → Option ℚ
  | Except.error _ => none
  | Except.ok none => none
  | Except.ok (some (MeasResult.list [])) => none
  | Except.ok (some (MeasResult.list (x :: xs))) =>
      some ((x :: xs).getLast (List.cons_ne_nil x xs))
  | Except.ok (some (MeasResult.single v)) => some v

namespace NgenicPowerSensor

/-- `NgenicPowerSensor._async_fetch_measurement` (`sensor.py`): the API
reports kW, Home Assistant wants W, so the fetched value is multiplied by
`1000.0` and rounded to one decimal: `round(current * 1000.0, 1)`. -/
def fetchMeasurement (r : Option MeasResult) : ℚ :=
  round1 (sensorGetMeasurementValue r * 1000)

end NgenicPowerSensor

/-!
## `Node` (`ngenicpy/models/node.py`)

The measurement-types cache: `self._measurementTypes` starts as `None` and
is filled from one HTTP GET.  The guard is `if not self._measurementTypes:`
— Python truthiness, so both `None` and the empty list re-fetch.  The API
response (the parsed JSON list of measurement-type codes) is a fixed
parameter `api`; each embedding returns the result, the new object state,
and the number of GET requests performed.  `MeasurementType(m)` is
Modelled from the spec: the measurement-type enumeration
(`ngenicpy/models/measurement.py` is not in the sources) wraps each
telemetry-kind code; the wrapping is injective, so codes stand for the
enum members here.
-/

/-- The mutable `Node` state the claims need: the measurement-types
cache (`None` before the first successful fill). -/
structure NodeState where
  measurementTypes : Option (List Int)
  deriving DecidableEq, Repr

/-- `not self._measurementTypes`: `None` and `[]` are falsy. -/
def cacheFalsy : Option (List Int) → Bool
  | none => true
  | some [] => true
  | some (_ :: _) => false

namespace Node

/-- `Node.measurement_types()`: when the cache is falsy, perform one GET
and store the listed types; otherwise answer from the cache.  Returns
(result, new state, number of GETs performed). -/
def measurement_types (api : List Int) (n : NodeState) :
    List Int × NodeState × Nat :=
  if cacheFalsy n.measurementTypes then
    let measurements := api
    (measurements, ⟨some measurements⟩, 1)
  else
    (n.measurementTypes.getD [], n, 0)

/-- `Node.async_measurement_types()`: same cache logic as the
synchronous variant, with the GET awaited. -/
def async_measurement_types (api : List Int) (n : NodeState) :
    List Int × NodeState × Nat :=
  if cacheFalsy n.measurementTypes then
    let measurements := api
    (measurements, ⟨some measurements⟩, 1)
  else
    (n.measurementTypes.getD [], n, 0)

end Node

/-!
## `NodeType` (`ngenicpy/models/node.py`)

A Python `Enum` with `_missing_` returning `UNKNOWN`: `NodeType(v)` looks
`v` up among member values and falls back to `UNKNOWN` for anything else,
so construction never raises.  A JSON `"type"` value can be any JSON
value; only the defined integer codes match a member.
-/

/-- The `NodeType` enumeration. -/
inductive NodeType where
  | UNKNOWN
  | SENSOR
  | CONTROLLER
  | GATEWAY
  | INTERNAL
  | ROUTER
  deriving DecidableEq, Repr

/-- The integer value of each `NodeType` member. -/
def NodeType.value : NodeType → Int
  | NodeType.UNKNOWN => -1
  | NodeType.SENSOR => 0
  | NodeType.CONTROLLER => 1
  | NodeType.GATEWAY => 2
  | NodeType.INTERNAL => 3
  | NodeType.ROUTER => 4

/-- A JSON value, as the `"type"` attribute of a node's JSON may hold. -/
inductive JVal where
  | jnull
  | jint (i : Int)
  | jstr (s : String)
  | jbool (b : Bool)
  deriving DecidableEq, Repr

/-- `NodeType(v)`: enum lookup by value equality.  Only values equal to a
member's code match that member; Python `bool` is an `int` subclass with
`True == 1` and `False == 0` (and equal hashes), so a boolean matches the
member of its integer value.  Every other value (unknown integers,
strings, null, …) falls through to `_missing_`, which returns
`UNKNOWN`. -/
def NodeType.ofJson : JVal → NodeType
  | JVal.jint i =>
    if i = -1 then NodeType.UNKNOWN
    else if i = 0 then NodeType.SENSOR
    else if i = 1 then NodeType.CONTROLLER
    else if i = 2 then NodeType.GATEWAY
    else if i = 3 then NodeType.INTERNAL
    else if i = 4 then NodeType.ROUTER
    else NodeType.UNKNOWN
  | JVal.jbool b => if b then NodeType.CONTROLLER else NodeType.SENSOR
  | _ => NodeType.UNKNOWN

/-- `Node.get_type()`: `NodeType(self["type"])` on the node's JSON
`"type"` attribute. -/
def Node.get_type (typeAttr : JVal) : NodeType := NodeType.ofJson typeAttr

/-!
## Polling timers (`climate.py`, `sensors/base.py`, `sensors/temperature.py`)

`async_track_time_interval(hass, cb, interval)` registers a periodic timer
and returns its cancel function; the entity keeps that handle in
`self._updater`.  The embedding records the registered interval in the
handle; `async_will_remove_from_hass` calls the handle (cancelling the
timer, recorded in the returned list) and clears it.
-/

/-- Python `timedelta`, reduced to a number of seconds. -/
structure Timedelta where
  seconds : Nat
  deriving DecidableEq, Repr

/-- `timedelta(minutes=m)`. -/
def timedeltaMinutes (m : Nat) : Timedelta := ⟨m * 60⟩

/-- `SCAN_INTERVAL` from `custom_components/ngenic/const.py`:
`timedelta(minutes=5)`. -/
def SCAN_INTERVAL : Timedelta := timedeltaMinutes 5

/-- An entity's updater handle: `none` before `setup_updater`, otherwise
the interval of the registered periodic timer. -/
structure UpdaterState where
  updater : Option Timedelta
  deriving DecidableEq, Repr

namespace NgenicTune

/-- `NgenicTune.setup_updater` (`climate.py`): register a periodic
updater with `timedelta(minutes=5)`. -/
def setup_updater (e : UpdaterState) : UpdaterState :=
  { e with updater := some (timedeltaMinutes 5) }

/-- `NgenicTune.async_will_remove_from_hass` (`climate.py`): when an
updater is registered, call its cancel function and clear the handle.
The second component lists the timers cancelled by the call. -/
def will_remove_from_hass (e : UpdaterState) :
    UpdaterState × List Timedelta :=
  match e.updater with
  | some u => ({ e with updater := none }, [u])
  | none => (e, [])

end NgenicTune

namespace SlimNgenicSensor

/-- `SlimNgenicSensor.setup_updater` (`sensors/base.py`): register a
periodic updater with the `update_interval` the sensor was constructed
with. -/
def setup_updater (update_interval : Timedelta) (e : UpdaterState) :
    UpdaterState :=
  { e with updater := some update_interval }

/-- `SlimNgenicSensor.async_will_remove_from_hass` (`sensors/base.py`):
call the cancel function when present and clear the handle. -/
def will_remove_from_hass (e : UpdaterState) :
    UpdaterState × List Timedelta :=
  match e.updater with
  | some u => ({ e with updater := none }, [u])
  | none => (e, [])

end SlimNgenicSensor

/-- `NgenicTemperatureSensor.__init__` (`sensors/temperature.py`) passes
`timedelta(minutes=5)` as the `update_interval` to the base constructor;
this is the interval `SlimNgenicSensor.setup_updater` registers. -/
def NgenicTemperatureSensor.update_interval : Timedelta := timedeltaMinutes 5

/-!
## Away-mode command handlers (`services.py`, `switch.py`)

Each handler body is embedded as the ordered trace of externally visible
events it performs on its success path (an exception inside the per-tune
`try` aborts the body before the remaining events, so a completed remote
mutation is exactly a trace that reaches past its HTTP calls).
`schedule.async_update()` contributes the `SetpointSchedule.async_update`
HTTP calls; `tune.async_setpoint_schedule(..., True)` is the
cache-revalidating GET; `async_dispatcher_send(hass, UPDATE_SCHEDULE_TOPIC)`
is the pub/sub notification.
-/

/-- An externally visible event of a handler body. -/
inductive Ev where
  | http (c : HttpCall)
  | apiGet
  | send (topic : String)
  deriving DecidableEq, Repr

/-- Whether an event is a remote schedule mutation (an HTTP write emitted
by `SetpointSchedule.async_update`). -/
def Ev.isMutation : Ev → Bool
  | Ev.http _ => true
  | _ => false

/-- `activate_away` (`services.py`), body for one tune, success path:
`schedule.activate_away()`, `await schedule.async_update()`, revalidate
the schedule cache, then `async_dispatcher_send(hass,
UPDATE_SCHEDULE_TOPIC)`. -/
def activateAwayTuneBody (iso : DT → String) (sch : SetpointSchedule)
    (rawNow : DT) : List Ev :=
  let sch := sch.activate_away iso rawNow
  (sch.async_update.map Ev.http) ++ [Ev.apiGet]
    ++ [Ev.send UPDATE_SCHEDULE_TOPIC]

/-- `set_away_schedule` (`services.py`), body for one tune, success path:
`schedule.set_schedule(start, end)`, `await schedule.async_update()`,
revalidate the cache, then `async_dispatcher_send(hass,
UPDATE_SCHEDULE_TOPIC)`. -/
def setAwayScheduleTuneBody (iso : DT → String) (sch : SetpointSchedule)
    (startT endT : DT) : List Ev :=
  let sch := sch.set_schedule iso startT endT
  (sch.async_update.map Ev.http) ++ [Ev.apiGet]
    ++ [Ev.send UPDATE_SCHEDULE_TOPIC]

/-- `NgenicAwayModeSwitch._toggle_away` (`switch.py`): with no loaded
schedule, warn and return; otherwise `activate_away()` or
`deactivate_away()`, `await self._schedule.async_update()`, then
`async_dispatcher_send(self.hass, UPDATE_SCHEDULE_TOPIC)`. -/
def toggleAwayBody (iso : DT → String) (osch : Option SetpointSchedule)
    (activeArg : Bool) (rawNow : DT) : List Ev :=
  match osch with
  | none => []
  | some sch =>
    let sch := if activeArg then sch.activate_away iso rawNow
               else sch.deactivate_away
    (sch.async_update.map Ev.http) ++ [Ev.send UPDATE_SCHEDULE_TOPIC]

/-- The suffix of a trace after its last remote mutation contains a
notification on `UPDATE_SCHEDULE_TOPIC`: every mutation in the trace is
followed by such a notification. -/
def notifiedAfterMutations (tr : List Ev) : Prop :=
  Ev.send UPDATE_SCHEDULE_TOPIC ∈
    tr.reverse.takeWhile (fun e => ! e.isMutation)

instance (tr : List Ev) : Decidable (notifiedAfterMutations tr) := by
  unfold notifiedAfterMutations
  infer_instance

/-!
## Theorems
-/

/-- Characterization of the `_active` computation: true exactly when both
bounds parse and the truncated clock lies in the half-open range. -/
lemma activeInit_eq_true_iff (parse : String → Option DT)
    (s : SetpointSchedule) (rawNow : DT) :
    SetpointSchedule.activeInit parse s rawNow = true ↔
      ∃ st et, s.start_time parse = some st ∧ s.end_time parse = some et ∧
        st.toUs ≤ rawNow.truncMin.toUs ∧ rawNow.truncMin.toUs < et.toUs := by
  unfold SetpointSchedule.activeInit
  cases h1 : s.start_time parse <;> cases h2 : s.end_time parse <;>
    simp [h1, h2, DT.leb, DT.ltb]

/-- C1: a `SetpointSchedule` constructed from JSON is active iff both
`startTime` and `endTime` parse and the construction-time clock, truncated
to whole minutes, satisfies `startTime <= now < endTime`; a missing or
unparsable bound gives `active() = False`.  The active computation is the
single range-containment check on the right-hand side. -/
theorem SetpointSchedule.active_iff_range (parse : String → Option DT)
    (tuneUuid : String) (startTime endTime : Option JField)
    (uuidF : Option String) (rawNow : DT) :
    (SetpointSchedule.init parse tuneUuid startTime endTime uuidF rawNow).active
      = true ↔
      ∃ st et,
        (SetpointSchedule.init parse tuneUuid startTime endTime uuidF
          rawNow).start_time parse = some st ∧
        (SetpointSchedule.init parse tuneUuid startTime endTime uuidF
          rawNow).end_time parse = some et ∧
        st.toUs ≤ rawNow.truncMin.toUs ∧ rawNow.truncMin.toUs < et.toUs := by
  have h := activeInit_eq_true_iff parse
    ⟨tuneUuid, false, startTime, endTime, uuidF⟩ rawNow
  simpa [SetpointSchedule.init, SetpointSchedule.active,
    SetpointSchedule.start_time, SetpointSchedule.end_time] using h

/-- C2: for every entity update (the two sensor `async_update`s and the
climate one), an exception marks the entity unavailable and leaves the
displayed state unchanged; a successful fetch marks it available and makes
the state the fetched (formatted) value. -/
theorem entity_update_marks_availability {α : Type} [DecidableEq α]
    (e : EntityState α) (f : Except Unit α) (t : TuneState)
    (g : Except Unit (ℚ × ℚ)) :
    ((NgenicSensor.async_update e f).available
        = (match f with | Except.ok _ => true | Except.error _ => false)
      ∧ (NgenicSensor.async_update e f).state
        = (match f with | Except.ok v => some v | Except.error _ => e.state))
    ∧ ((SlimNgenicSensor.async_update e f).available
        = (match f with | Except.ok _ => true | Except.error _ => false)
      ∧ (SlimNgenicSensor.async_update e f).state
        = (match f with | Except.ok v => some v | Except.error _ => e.state))
    ∧ ((NgenicTune.async_update t g).available
        = (match g with | Except.ok _ => true | Except.error _ => false)
      ∧ (NgenicTune.async_update t g).current_temperature
        = (match g with
           | Except.ok p => some (round1 p.1)
           | Except.error _ => t.current_temperature)
      ∧ (NgenicTune.async_update t g).target_temperature
        = (match g with
           | Except.ok p => some (round1 p.2)
           | Except.error _ => t.target_temperature)) := by
  refine ⟨⟨?_, ?_⟩, ⟨?_, ?_⟩, ⟨?_, ?_, ?_⟩⟩ <;>
    rcases f with _ | v <;> rcases g with _ | ⟨c, tt⟩ <;>
      simp [NgenicSensor.async_update, SlimNgenicSensor.async_update,
        NgenicTune.async_update] <;>
      split_ifs with h <;> simp_all

/-- C3: `SetpointSchedule.async_update` performs exactly one remote call
determined by its state — DELETE when inactive with a UUID, PUT when
active with a UUID, POST when active without one — and no call at all
when it is inactive without a UUID. -/
theorem SetpointSchedule.async_update_dispatch (s : SetpointSchedule)
    (u : String) :
    (s._active = false → s.uuidF = none → s.async_update = [])
    ∧ (s._active = false → s.uuidF = some u → s.async_update
        = [HttpCall.delete (setpointSchedulesUrl s.parentTuneUuid ++ "/" ++ u)])
    ∧ (s._active = true → s.uuidF = some u → s.async_update
        = [HttpCall.put (setpointSchedulesUrl s.parentTuneUuid ++ "/" ++ u)])
    ∧ (s._active = true → s.uuidF = none → s.async_update
        = [HttpCall.post (setpointSchedulesUrl s.parentTuneUuid)])
    ∧ s.async_update.length ≤ 1 := by
  unfold SetpointSchedule.async_update
  rcases s with ⟨tu, a, st, et, uf⟩
  cases a <;> cases uf <;> simp +contextual

/-- Appending a notification on `UPDATE_SCHEDULE_TOPIC` to any trace makes
it notified-after-mutations. -/
lemma notified_of_append_send (l : List Ev) :
    notifiedAfterMutations (l ++ [Ev.send UPDATE_SCHEDULE_TOPIC]) := by
  unfold notifiedAfterMutations
  rw [List.reverse_append]
  simp [List.takeWhile, Ev.isMutation]

/-- C4: each away-mode handler that mutates the remote schedule — the
`activate_away` and `set_away_schedule` service bodies and the away-switch
toggle — sends a notification on `UPDATE_SCHEDULE_TOPIC` after the remote
mutation completes: in each success trace, the suffix after the last
remote mutation contains the notification. -/
theorem away_handlers_notify_after_mutation (iso : DT → String)
    (sch : SetpointSchedule) (rawNow startT endT : DT) (activeArg : Bool) :
    notifiedAfterMutations (activateAwayTuneBody iso sch rawNow)
    ∧ notifiedAfterMutations (setAwayScheduleTuneBody iso sch startT endT)
    ∧ notifiedAfterMutations (toggleAwayBody iso (some sch) activeArg rawNow) := by
  refine ⟨?_, ?_, ?_⟩
  · simp only [activateAwayTuneBody]
    exact notified_of_append_send _
  · simp only [setAwayScheduleTuneBody]
    exact notified_of_append_send _
  · simp only [toggleAwayBody]
    exact notified_of_append_send _

/-- C5 counterexample: when the measurement-types API reports an empty
list, the first call fills the cache with `[]`, yet the second call still
performs an HTTP GET — the `if not self._measurementTypes:` guard treats
the cached empty list as missing.  This falsifies "after the first call,
every subsequent call returns the cached list without performing another
HTTP GET" at the concrete input `api = []`. -/
theorem Node.measurement_types_empty_refetch :
    (Node.measurement_types [] ⟨none⟩).2.1 = ⟨some []⟩
    ∧ (Node.measurement_types [] (Node.measurement_types [] ⟨none⟩).2.1).2.2
        = 1
    ∧ (Node.measurement_types [] (Node.measurement_types [] ⟨none⟩).2.1).2.2
        ≠ 0 := by
  decide

/-- C5 (amended): provided the first fetch returns a non-empty list, the
measurement-types list is fetched at most once per `Node`: the first call
performs one GET and caches, and every later call — synchronous or
asynchronous — returns the same list with no further GET; the two variants
agree on every input. -/
theorem Node.measurement_types_cached (api : List Int) (h : api ≠ []) :
    (Node.measurement_types api ⟨none⟩).2.2 = 1
    ∧ Node.measurement_types api (Node.measurement_types api ⟨none⟩).2.1
        = ((Node.measurement_types api ⟨none⟩).1,
           (Node.measurement_types api ⟨none⟩).2.1, 0)
    ∧ Node.async_measurement_types api (Node.measurement_types api ⟨none⟩).2.1
        = Node.measurement_types api (Node.measurement_types api ⟨none⟩).2.1
    ∧ Node.async_measurement_types api ⟨none⟩
        = Node.measurement_types api ⟨none⟩ := by
  rcases api with _ | ⟨m, ms⟩
  · exact absurd rfl h
  · refine ⟨rfl, ?_, ?_, rfl⟩ <;>
      simp [Node.measurement_types, Node.async_measurement_types, cacheFalsy]

/-- C5 witness: the amended statement at the concrete response `[1, 2]`. -/
theorem Node.measurement_types_cached_witness :
    (Node.measurement_types [1, 2] ⟨none⟩).2.2 = 1
    ∧ Node.measurement_types [1, 2] (Node.measurement_types [1, 2] ⟨none⟩).2.1
        = ((Node.measurement_types [1, 2] ⟨none⟩).1,
           (Node.measurement_types [1, 2] ⟨none⟩).2.1, 0)
    ∧ Node.async_measurement_types [1, 2]
          (Node.measurement_types [1, 2] ⟨none⟩).2.1
        = Node.measurement_types [1, 2] (Node.measurement_types [1, 2] ⟨none⟩).2.1
    ∧ Node.async_measurement_types [1, 2] ⟨none⟩
        = Node.measurement_types [1, 2] ⟨none⟩ :=
  Node.measurement_types_cached [1, 2] (by decide)

/-- Half-even rounding moves a rational by at most one half. -/
lemma abs_roundHalfEven_sub_le (q : ℚ) : |(roundHalfEven q : ℚ) - q| ≤ 1 / 2 := by
  have h0 : (⌊q⌋ : ℚ) ≤ q := Int.floor_le q
  have h1 : q < ⌊q⌋ + 1 := Int.lt_floor_add_one q
  rw [abs_le]
  unfold roundHalfEven
  split_ifs <;> push_cast <;> constructor <;> linarith

/-- Rounding to one decimal moves a rational by at most `1/20`. -/
lemma abs_round1_sub_le (q : ℚ) : |round1 q - q| ≤ 1 / 20 := by
  have h := abs_roundHalfEven_sub_le (q * 10)
  have e : (roundHalfEven (q * 10) : ℚ) / 10 - q
      = ((roundHalfEven (q * 10) : ℚ) - q * 10) / 10 := by ring
  rw [round1, e, abs_div, abs_of_pos (by norm_num : (0 : ℚ) < 10)]
  linarith

/-- On a successful fetch, `async_update` stores exactly the fetched
value. -/
lemma sensor_update_ok {α : Type} [DecidableEq α] (e : EntityState α)
    (v : α) :
    (NgenicSensor.async_update e (Except.ok v)).state = some v
    ∧ (NgenicSensor.async_update e (Except.ok v)).available = true := by
  constructor <;> · simp [NgenicSensor.async_update]; split_ifs with h <;> simp_all

/-- C6: the power sensor transforms the API value into display units — on
every successful fetch the reported state is the measurement value (kW)
multiplied by 1000 and rounded to one decimal place: it is an integer
number of tenths within `1/20` of the exact product. -/
theorem NgenicPowerSensor.reports_watts (r : Option MeasResult)
    (e : EntityState ℚ) :
    (NgenicSensor.async_update e
        (Except.ok (NgenicPowerSensor.fetchMeasurement r))).state
      = some (round1 (sensorGetMeasurementValue r * 1000))
    ∧ (NgenicSensor.async_update e
        (Except.ok (NgenicPowerSensor.fetchMeasurement r))).available = true
    ∧ (∃ n : ℤ, round1 (sensorGetMeasurementValue r * 1000) = (n : ℚ) / 10)
    ∧ |round1 (sensorGetMeasurementValue r * 1000)
        - sensorGetMeasurementValue r * 1000| ≤ 1 / 20 := by
  refine ⟨(sensor_update_ok e _).1, (sensor_update_ok e _).2,
    ⟨roundHalfEven (sensorGetMeasurementValue r * 1000 * 10), rfl⟩,
    abs_round1_sub_le _⟩

/-- C7: the climate entity and the temperature sensor poll on a fixed
five-minute interval — `setup_updater` registers a periodic updater whose
interval is `timedelta(minutes=5)` (the `SCAN_INTERVAL` of `const.py`) —
and removing the entity cancels exactly that updater. -/
theorem polling_interval_five_minutes (e s : UpdaterState) :
    SCAN_INTERVAL = timedeltaMinutes 5
    ∧ (NgenicTune.setup_updater e).updater = some (timedeltaMinutes 5)
    ∧ NgenicTune.will_remove_from_hass (NgenicTune.setup_updater e)
        = (⟨none⟩, [timedeltaMinutes 5])
    ∧ NgenicTemperatureSensor.update_interval = timedeltaMinutes 5
    ∧ (SlimNgenicSensor.setup_updater NgenicTemperatureSensor.update_interval
        s).updater = some (timedeltaMinutes 5)
    ∧ SlimNgenicSensor.will_remove_from_hass
        (SlimNgenicSensor.setup_updater NgenicTemperatureSensor.update_interval s)
        = (⟨none⟩, [timedeltaMinutes 5]) := by
  refine ⟨rfl, rfl, ?_, rfl, rfl, ?_⟩ <;>
    simp [NgenicTune.setup_updater, NgenicTune.will_remove_from_hass,
      SlimNgenicSensor.setup_updater, SlimNgenicSensor.will_remove_from_hass,
      NgenicTemperatureSensor.update_interval]

/-- C8: after `activate_away`, `active()` is true, the stored `startTime`
is the clock reading with seconds and microseconds zeroed, and the stored
`endTime` is exactly 60 days (5184000000000 microseconds) later; after
`deactivate_away`, `active()` is false and both bounds are `None`.  The
two parse hypotheses say the external ISO round-trip holds at the two
instants actually stored. -/
theorem SetpointSchedule.away_toggle_times (parse : String → Option DT)
    (iso : DT → String) (s : SetpointSchedule) (rawNow : DT)
    (hs : parse (iso rawNow.truncMin) = some rawNow.truncMin)
    (he : parse (iso (rawNow.truncMin.addDays 60))
        = some (rawNow.truncMin.addDays 60)) :
    (s.activate_away iso rawNow).active = true
    ∧ (s.activate_away iso rawNow).start_time parse = some rawNow.truncMin
    ∧ (s.activate_away iso rawNow).end_time parse
        = some (rawNow.truncMin.addDays 60)
    ∧ rawNow.truncMin = ⟨rawNow.min, 0⟩
    ∧ (rawNow.truncMin.addDays 60).toUs = rawNow.truncMin.toUs + 5184000000000
    ∧ s.deactivate_away.active = false
    ∧ s.deactivate_away.start_time parse = none
    ∧ s.deactivate_away.end_time parse = none := by
  refine ⟨rfl, ?_, ?_, rfl, ?_, rfl, rfl, rfl⟩
  · simpa [SetpointSchedule.activate_away, SetpointSchedule.start_time] using hs
  · simpa [SetpointSchedule.activate_away, SetpointSchedule.end_time] using he
  · simp [DT.addDays, DT.toUs, DT.truncMin]
    ring

/-- C8 witness: the statement at a concrete schedule, clock reading
`(0 min, 30 s)` and a two-point ISO round-trip pair. -/
theorem SetpointSchedule.away_toggle_times_witness :
    (SetpointSchedule.activate_away
        (fun d => if d = (⟨0, 0⟩ : DT) then "a" else "b")
        ⟨"tune", false, none, none, none⟩ ⟨0, 30⟩).active = true
    ∧ (SetpointSchedule.activate_away
        (fun d => if d = (⟨0, 0⟩ : DT) then "a" else "b")
        ⟨"tune", false, none, none, none⟩ ⟨0, 30⟩).start_time
        (fun t => if t = "a" then some (⟨0, 0⟩ : DT)
          else if t = "b" then some (⟨86400, 0⟩ : DT) else none)
        = some ((⟨0, 30⟩ : DT).truncMin)
    ∧ (SetpointSchedule.activate_away
        (fun d => if d = (⟨0, 0⟩ : DT) then "a" else "b")
        ⟨"tune", false, none, none, none⟩ ⟨0, 30⟩).end_time
        (fun t => if t = "a" then some (⟨0, 0⟩ : DT)
          else if t = "b" then some (⟨86400, 0⟩ : DT) else none)
        = some (((⟨0, 30⟩ : DT).truncMin).addDays 60)
    ∧ (⟨0, 30⟩ : DT).truncMin = ⟨(⟨0, 30⟩ : DT).min, 0⟩
    ∧ (((⟨0, 30⟩ : DT).truncMin).addDays 60).toUs
        = ((⟨0, 30⟩ : DT).truncMin).toUs + 5184000000000
    ∧ (SetpointSchedule.deactivate_away
        ⟨"tune", false, none, none, none⟩).active = false
    ∧ (SetpointSchedule.deactivate_away
        ⟨"tune", false, none, none, none⟩).start_time
        (fun t => if t = "a" then some (⟨0, 0⟩ : DT)
          else if t = "b" then some (⟨86400, 0⟩ : DT) else none) = none
    ∧ (SetpointSchedule.deactivate_away
        ⟨"tune", false, none, none, none⟩).end_time
        (fun t => if t = "a" then some (⟨0, 0⟩ : DT)
          else if t = "b" then some (⟨86400, 0⟩ : DT) else none) = none :=
  SetpointSchedule.away_toggle_times
    (fun t => if t = "a" then some (⟨0, 0⟩ : DT)
      else if t = "b" then some (⟨86400, 0⟩ : DT) else none)
    (fun d => if d = (⟨0, 0⟩ : DT) then "a" else "b")
    ⟨"tune", false, none, none, none⟩ ⟨0, 30⟩ (by decide) (by decide)

/-- C9: `NodeType` construction is total — `Node.get_type()` is defined
on every JSON `"type"` value.  The defined codes 0..4 give the
corresponding members; any integer that is none of the defined codes
gives `NodeType.UNKNOWN`, as do strings and null.  A boolean is not an
exception to the claim: Python `bool` subclasses `int` with `True == 1`
and `False == 0`, so a boolean compares equal to a defined code and
yields that code's member, never raising. -/
theorem NodeType.total_mapping (i : Int) (h0 : i ≠ 0) (h1 : i ≠ 1)
    (h2 : i ≠ 2) (h3 : i ≠ 3) (h4 : i ≠ 4) :
    Node.get_type (JVal.jint 0) = NodeType.SENSOR
    ∧ Node.get_type (JVal.jint 1) = NodeType.CONTROLLER
    ∧ Node.get_type (JVal.jint 2) = NodeType.GATEWAY
    ∧ Node.get_type (JVal.jint 3) = NodeType.INTERNAL
    ∧ Node.get_type (JVal.jint 4) = NodeType.ROUTER
    ∧ Node.get_type (JVal.jint i) = NodeType.UNKNOWN
    ∧ (∀ t, Node.get_type (JVal.jstr t) = NodeType.UNKNOWN)
    ∧ Node.get_type JVal.jnull = NodeType.UNKNOWN
    ∧ Node.get_type (JVal.jbool false) = NodeType.SENSOR
    ∧ Node.get_type (JVal.jbool true) = NodeType.CONTROLLER := by
  refine ⟨by decide, by decide, by decide, by decide, by decide, ?_,
    fun _ => rfl, rfl, by decide, by decide⟩
  simp only [Node.get_type, NodeType.ofJson]
  split_ifs <;> simp_all

/-- C9 witness: the statement at the undefined code 7. -/
theorem NodeType.total_mapping_witness :
    Node.get_type (JVal.jint 0) = NodeType.SENSOR
    ∧ Node.get_type (JVal.jint 1) = NodeType.CONTROLLER
    ∧ Node.get_type (JVal.jint 2) = NodeType.GATEWAY
    ∧ Node.get_type (JVal.jint 3) = NodeType.INTERNAL
    ∧ Node.get_type (JVal.jint 4) = NodeType.ROUTER
    ∧ Node.get_type (JVal.jint 7) = NodeType.UNKNOWN
    ∧ (∀ t, Node.get_type (JVal.jstr t) = NodeType.UNKNOWN)
    ∧ Node.get_type JVal.jnull = NodeType.UNKNOWN
    ∧ Node.get_type (JVal.jbool false) = NodeType.SENSOR
    ∧ Node.get_type (JVal.jbool true) = NodeType.CONTROLLER :=
  NodeType.total_mapping 7 (by decide) (by decide) (by decide) (by decide)
    (by decide)

/-- C10 counterexample: when no measurement is found for the period, the
`sensor.py` implementation returns `0` while the `sensors/__init__.py`
implementation returns `None` — the two do not return the same result at
the concrete response "no measurement". -/
theorem get_measurement_value_divergence :
    sensorGetMeasurementValue none = 0
    ∧ slimGetMeasurementValue (Except.ok none) = none
    ∧ slimGetMeasurementValue (Except.ok none)
        ≠ some (sensorGetMeasurementValue none) := by
  exact ⟨rfl, rfl, by decide⟩

/-- C10 (amended): the two `get_measurement_value` implementations agree
whenever a measurement exists — a non-empty list response yields its last
element's value in both, a single-measurement response its value — but
when no measurement is found (a `None` or empty-list response) the
`sensor.py` one returns `0` while the `sensors/__init__.py` one returns
`None`; the latter also returns `None` when the underlying call raises,
where the former propagates the exception. -/
theorem get_measurement_value_agreement (x v : ℚ) (xs : List ℚ) :
    slimGetMeasurementValue (Except.ok (some (MeasResult.list (x :: xs))))
        = some (sensorGetMeasurementValue (some (MeasResult.list (x :: xs))))
    ∧ slimGetMeasurementValue (Except.ok (some (MeasResult.single v)))
        = some (sensorGetMeasurementValue (some (MeasResult.single v)))
    ∧ sensorGetMeasurementValue none = 0
    ∧ slimGetMeasurementValue (Except.ok none) = none
    ∧ sensorGetMeasurementValue (some (MeasResult.list [])) = 0
    ∧ slimGetMeasurementValue (Except.ok (some (MeasResult.list []))) = none
    ∧ slimGetMeasurementValue (Except.error ()) = none :=
  ⟨rfl, rfl, rfl, rfl, rfl, rfl, rfl⟩
